import Mathlib

/-!
Shallow embedding of the objc-cffi bridge (src/objc/api.py) and proofs about
its documented behaviour.  Machine addresses are modelled as natural numbers
with 0 standing for the NULL pointer; Python exceptions are modelled by the
PyError inductive and fallible code returns Except PyError.  Loops whose
bound comes from the external Objective-C runtime (superclass chains) are
modelled with an explicit fuel argument: a result of none means the loop has
not finished within the given fuel, and a statement that holds for every
fuel amount expresses nontermination.
-/

/-- Reasons attached to a Python ValueError raised by the bridge. -/
inductive ValueReason where
  | invalidSelector
  | argCountVsArgtypes
  | argCountVsColons
  | notAClass
  | notAMetaclass
  | notAProtocolInstance
  | unknownConversion
  | ellipsisNotLast
  deriving DecidableEq, Repr

/-- The Python exception classes raised by the code under consideration. -/
inductive PyError where
  | typeError
  | valueError (reason : ValueReason)
  | keyError
  | attributeError
  | unboundLocalError
  deriving DecidableEq, Repr

/-- The kind attribute of a CFFI ctype object (cffi CType.kind). -/
inductive CKind where
  | primitive
  | pointer
  | arrayKind
  | structKind
  | unionKind
  | voidKind
  deriving DecidableEq, Repr

mutual
/-- A CFFI ctype as produced by ffi.typeof in src/objc/api.py.  The id, Class
and SEL typedefs are pointer types; incomplete covers a declared struct or
union without a field list, including the DGUnknownType, DGUnknownStruct and
DGUnknownUnion placeholders that api.py declares in its cdef block. -/
inductive CType where
  | void
  | scalar (ctypeName : String)
  | pointer (elt : CType)
  | idType
  | classType
  | selType
  | array (elt : CType) (length : Nat)
  | incomplete (isUnion : Bool) (name : String)
  | complete (isUnion : Bool) (name : String) (fields : List CField)
  deriving Repr

/-- One field of a synthesized struct or union layout: a plainly typed field,
a bit-field (bool of width 1, or unsigned int of the given width), or the
zero-length char array placeholder emitted for an empty field list. -/
inductive CField where
  | plain (name : String) (ty : CType)
  | bitfield (name : String) (isBool : Bool) (width : Nat)
  | emptyArrayPlaceholder
  deriving Repr
end

/-- Test for the void ctype (comparison restype != void in the source, where
there is exactly one void ctype object). -/
def CType.isVoid : CType → Bool
  | .void => true
  | _ => false

/-- The kind attribute of each modelled ctype (id, Class and SEL are pointer
typedefs; the unknown placeholders are incomplete structs). -/
def CType.kind : CType → CKind
  | .void => .voidKind
  | .scalar _ => .primitive
  | .pointer _ => .pointer
  | .idType => .pointer
  | .classType => .pointer
  | .selType => .pointer
  | .array _ _ => .arrayKind
  | .incomplete isUnion _ => if isUnion then .unionKind else .structKind
  | .complete isUnion _ _ => if isUnion then .unionKind else .structKind

/-- Translation of api.py _must_use_stret: true when not LP64 and the return
type is not void and its kind is the struct kind. -/
def mustUseStret (lp64 : Bool) (restype : CType) : Bool :=
  !lp64 && !restype.isVoid && decide (restype.kind = CKind.structKind)

/-- Translation of the entry-point choice in api.py _get_polymorphic: the
name of the libc symbol fetched for the polymorphic function. -/
def polymorphicName (lp64 : Bool) (name : String) (restype : CType) : String :=
  if mustUseStret lp64 restype then name ++ "_stret" else name

mutual
/-- Modelled from the spec: the structured encoded-type values produced by the
out-of-scope objc.encoding decoder (spec section 4.1 lists the variants:
qualified wrapper, unknown placeholder, void, scalar, pointer, id, class
reference, selector reference, array with length, struct and union with
optional name and optional field list, and the internal-only bit-field and
plain-field subtypes).  The objc/encoding.py module is not part of src/, so
this inductive follows the interface that api.py consumes. -/
inductive EncType where
  | qualified (t : EncType)
  | unknown
  | voidEnc
  | scalar (ctypeName : String)
  | pointer (elt : EncType)
  | idEnc
  | classEnc
  | selEnc
  | array (elt : EncType) (length : Nat)
  | structEnc (name : Option String) (fields : Option EncFieldList)
  | unionEnc (name : Option String) (fields : Option EncFieldList)
  | bitField (width : Nat)
  | fieldEnc (f : EncField)
  deriving Repr

/-- A list of declared fields of a struct or union encoding. -/
inductive EncFieldList where
  | nil
  | cons (f : EncField) (rest : EncFieldList)
  deriving Repr

/-- One declared field: an optional name and an encoded type (which may be a
bit-field). -/
inductive EncField where
  | mk (name : Option String) (ty : EncType)
  deriving Repr
end

/-- The internal-only encoding subtypes (encoding.InternalType): bit-fields
and plain fields may only occur inside a field list. -/
def EncType.isInternal : EncType → Bool
  | .bitField _ => true
  | .fieldEnc _ => true
  | _ => false

mutual
/-- Translation of api.py _encoding_type_to_cffi: convert a structured
encoded type into a CFFI ctype, raising TypeError on internal-only types. -/
def encodingTypeToCffi (tp : EncType) : Except PyError CType :=
  match tp with
  | .bitField _ => .error .typeError
  | .fieldEnc _ => .error .typeError
  | .qualified t => encodingTypeToCffi t
  | .unknown => .ok (.incomplete false ("DGUnknownType"))
  | .voidEnc => .ok .void
  | .scalar s => .ok (.scalar s)
  | .pointer t =>
      match encodingTypeToCffi t with
      | .error e => .error e
      | .ok ct => .ok (.pointer ct)
  | .idEnc => .ok .idType
  | .classEnc => .ok .classType
  | .selEnc => .ok .selType
  | .array t n =>
      match encodingTypeToCffi t with
      | .error e => .error e
      | .ok ct => .ok (.array ct n)
  | .structEnc name fields => structUnionToCffi false name fields
  | .unionEnc name fields => structUnionToCffi true name fields

/-- The struct and union arm of _encoding_type_to_cffi: a nameless fieldless
struct or union becomes the unknown placeholder, an absent field list gives
an incomplete declared type, and otherwise a complete layout is synthesized
(an empty field list gets the zero-length char array placeholder field). -/
def structUnionToCffi (isUnion : Bool) (name : Option String)
    (fields : Option EncFieldList) : Except PyError CType :=
  match name, fields with
  | none, none =>
      .ok (.incomplete isUnion (if isUnion then "DGUnknownUnion" else "DGUnknownStruct"))
  | _, none => .ok (.incomplete isUnion (name.getD ""))
  | _, some fl =>
      match fieldsToCffi fl 0 with
      | .error e => .error e
      | .ok cfs =>
          .ok (.complete isUnion (name.getD "")
            (if cfs.isEmpty then [CField.emptyArrayPlaceholder] else cfs))

/-- The field-list loop of _encoding_type_to_cffi: i is the enumerate index,
used to synthesize the positional placeholder name of an unnamed field; a
bit-field of width 1 becomes a bool bit-field, any other width an unsigned
bit-field of that width, and any other field type is converted recursively. -/
def fieldsToCffi (fl : EncFieldList) (i : Nat) : Except PyError (List CField) :=
  match fl with
  | .nil => .ok []
  | .cons (.mk fname fty) rest =>
      let fieldName := fname.getD ("_field_" ++ toString i)
      match fty with
      | .bitField w =>
          let cf := if w = 1 then CField.bitfield fieldName true 1
                    else CField.bitfield fieldName false w
          match fieldsToCffi rest (i + 1) with
          | .error e => .error e
          | .ok cfs => .ok (cf :: cfs)
      | _ =>
          match encodingTypeToCffi fty with
          | .error e => .error e
          | .ok ct =>
              match fieldsToCffi rest (i + 1) with
              | .error e => .error e
              | .ok cfs => .ok (CField.plain fieldName ct :: cfs)
end

/-- The part of the external selector table that _check_argcounts consults:
sel_isMapped, and the number of colon bytes in sel_getName. -/
structure SelEnv where
  isMapped : Nat → Bool
  colonCount : Nat → Nat

/-- One entry of an argtypes list passed to _objc_msgSend: a concrete ctype
or the Python Ellipsis variadic marker. -/
inductive ArgType where
  | concrete (t : CType)
  | ellipsisMarker
  deriving Repr

/-- The variadic test of _check_argcounts: argtypes is nonempty and its last
entry is the Ellipsis marker. -/
def isVariadic (argtypes : List ArgType) : Bool :=
  match argtypes.getLast? with
  | some .ellipsisMarker => true
  | _ => false

/-- Translation of api.py _check_argcounts: an unmapped selector is an
invalid-selector ValueError; otherwise, unless the argtypes list is
variadic, the argument count must equal both the argtypes count and the
number of colons in the selector name. -/
def checkArgcounts (env : SelEnv) (op : Nat) (numArgs : Nat)
    (argtypes : List ArgType) : Except PyError Unit :=
  if !env.isMapped op then .error (.valueError .invalidSelector)
  else if !isVariadic argtypes then
    if numArgs ≠ argtypes.length then .error (.valueError .argCountVsArgtypes)
    else if numArgs ≠ env.colonCount op then .error (.valueError .argCountVsColons)
    else .ok ()
  else .ok ()

/-- External side effects a dynamic send can perform on the Objective-C
runtime, in order: resolving the casted polymorphic entry point, and the
message send itself. -/
inductive ExtEffect where
  | resolvedEntry (symbolName : String)
  | sentMessage (op : Nat)
  deriving DecidableEq, Repr

/-- The checks of api.py _make_function_ptr_ctype: a non-void return type
must have a kind (array return types are rejected with TypeError), and the
Ellipsis marker may only be the last argtype (ValueError otherwise). -/
def makeFunctionPtrChecks (restype : CType) (argtypes : List ArgType) : Except PyError Unit :=
  match restype with
  | .array _ _ => .error .typeError
  | _ =>
      let rec ellipsisLastOnly : List ArgType → Except PyError Unit
        | [] => .ok ()
        | [_] => .ok ()
        | .ellipsisMarker :: _ :: _ => .error (.valueError .ellipsisNotLast)
        | .concrete _ :: rest => ellipsisLastOnly rest
      ellipsisLastOnly argtypes

/-- Translation of api.py _objc_msgSend: run _check_argcounts, then build the
function pointer ctype and resolve the polymorphic entry point via
_get_polymorphic, then perform the send.  The second component is the list
of external effects that actually happened; failures happen before the
entry point is resolved or the message is sent. -/
def objcMsgSendModel (env : SelEnv) (lp64 : Bool) (obj op : Nat) (numArgs : Nat)
    (restype : CType) (argtypes : List ArgType) : Except PyError Unit × List ExtEffect :=
  match checkArgcounts env op numArgs argtypes with
  | .error e => (.error e, [])
  | .ok () =>
      match makeFunctionPtrChecks restype (ArgType.concrete .idType :: ArgType.concrete .selType :: argtypes) with
      | .error e => (.error e, [])
      | .ok () =>
          let _ := obj
          (.ok (), [.resolvedEntry (polymorphicName lp64 ("objc_msgSend") restype),
                    .sentMessage op])

/-- State of the object-family interning cache (the single weak-value cache
shared by ID, Class, MetaClass and Protocol) together with a ghost record of
the reference-count traffic this layer generated: retain and release calls
it made, and retentions the callers handed over through a non-retaining
construction (the documented contract of the retain keyword in ID.__new__).
Counters are per address. -/
structure InternState where
  cache : List (Nat × Nat)
  nextId : Nat
  retainCalls : Nat → Nat
  transfersIn : Nat → Nat
  releaseCalls : Nat → Nat

/-- Increment a per-address counter at one address. -/
def bump (f : Nat → Nat) (a : Nat) : Nat → Nat :=
  fun x => if x = a then f x + 1 else f x

/-- Dictionary lookup in the interning cache. -/
def lookupCache (c : List (Nat × Nat)) (a : Nat) : Option Nat :=
  (c.find? (fun p => p.1 == a)).map (fun p => p.2)

/-- The empty interning cache at interpreter start. -/
def initIntern : InternState :=
  ⟨[], 0, fun _ => 0, fun _ => 0, fun _ => 0⟩

/-- Translation of the cdata arm of ID.__new__ (the critical section runs
under the cache lock, so each construction is one atomic step): NULL returns
no proxy; a cache hit returns the cached proxy, releasing once when retain
is false; a miss allocates a fresh proxy, registers it, and retains once
exactly when retain is true.  When retain is false the caller hands one
existing retention over to this layer, recorded in the ghost transfersIn
counter (on a hit that handed-over retention is what the release balances). -/
def idNew (s : InternState) (addr : Nat) (retain : Bool) : Option Nat × InternState :=
  if addr = 0 then (none, s)
  else
    let s₀ := if retain then s else { s with transfersIn := bump s.transfersIn addr }
    match lookupCache s₀.cache addr with
    | some p =>
        if retain then (some p, s₀)
        else (some p, { s₀ with releaseCalls := bump s₀.releaseCalls addr })
    | none =>
        let p := s₀.nextId
        let s₁ := { s₀ with nextId := p + 1, cache := (addr, p) :: s₀.cache }
        let s₂ := if retain then { s₁ with retainCalls := bump s₁.retainCalls addr } else s₁
        (some p, s₂)

/-- Translation of the branch of ID.__new__ for an argument that is already
an ID instance: the proxy is returned unchanged and one release balances the
handed-over retention when retain is false. -/
def idNewExisting (s : InternState) (addr : Nat) (retain : Bool) : InternState :=
  if retain then s
  else { s with transfersIn := bump s.transfersIn addr,
                releaseCalls := bump s.releaseCalls addr }

/-- Destruction of the live proxy for addr: the weak-value cache entry goes
away and the _gc_release hook installed at construction releases exactly
once. -/
def idDel (s : InternState) (addr : Nat) : InternState :=
  { s with cache := s.cache.filter (fun p => p.1 != addr),
           releaseCalls := bump s.releaseCalls addr }

/-- Net external retentions this layer holds for an address: retain calls it
made plus retentions handed over to it, minus release calls it made. -/
def attributed (s : InternState) (a : Nat) : Int :=
  (s.retainCalls a : Int) + (s.transfersIn a : Int) - (s.releaseCalls a : Int)

/-- Number of live proxies for an address (interning makes this 0 or 1). -/
def liveCount (s : InternState) (a : Nat) : Nat :=
  (s.cache.filter (fun p => p.1 == a)).length

/-- The ownership invariant of the interning layer: live proxies are keyed
by distinct non-null addresses and the net retentions held for every address
equal the number of live proxies for it. -/
def InternInv (s : InternState) : Prop :=
  (s.cache.map Prod.fst).Nodup ∧ (∀ p ∈ s.cache, p.1 ≠ 0) ∧
    (∀ a, attributed s a = (liveCount s a : Int))

/-- State of a non-owning interning cache (Selector, Ivar, Method and
Property each own one): no reference counting is involved. -/
structure SelInternState where
  cache : List (Nat × Nat)
  nextId : Nat

/-- Translation of the cdata arm of Selector.__new__: NULL gives no proxy, a
hit returns the cached proxy, and on a miss an unmapped selector address is
rejected with ValueError before a fresh proxy is created and registered. -/
def selNew (env : SelEnv) (s : SelInternState) (addr : Nat) :
    Except PyError (Option Nat) × SelInternState :=
  if addr = 0 then (.ok none, s)
  else
    match lookupCache s.cache addr with
    | some p => (.ok (some p), s)
    | none =>
        if !env.isMapped addr then (.error (.valueError .invalidSelector), s)
        else (.ok (some s.nextId), ⟨(addr, s.nextId) :: s.cache, s.nextId + 1⟩)

/-- The slice of the Objective-C runtime introspection API used by the
modelled code: class lookup by name, superclass chains, kind predicates and
object_getClass.  Addresses are machine words, 0 is NULL. -/
structure RtEnv where
  getClassByName : String → Nat
  superclassOf : Nat → Nat
  isClass : Nat → Bool
  isMeta : Nat → Bool
  classOf : Nat → Nat

/-- Translation of the module-level _class_cdata table of api.py: well-known
class objects fetched once by name.  The NSDictionary entry is filled by
looking up the name NSData, exactly as the source does. -/
def classCdata (env : RtEnv) : String → Nat
  | "NSArray" => env.getClassByName ("NSArray")
  | "NSData" => env.getClassByName ("NSData")
  | "NSDictionary" => env.getClassByName ("NSData")
  | "NSSet" => env.getClassByName ("NSSet")
  | "NSString" => env.getClassByName ("NSString")
  | "NSValue" => env.getClassByName ("NSValue")
  | "Protocol" => env.getClassByName ("Protocol")
  | _ => 0

/-- Translation of the while loop of api.py _objc_issubclass.  The loop body
compares the unchanged subclass argument against superclass and stores
class_getSuperclass(subclass) in a local variable named cls that is never
read again, so the loop variable does not advance; the fuel argument counts
loop iterations and none means the loop was still running after that many
iterations. -/
def objcIssubclassLoop (env : RtEnv) (subclass superclass : Nat) : Nat → Option Bool
  | 0 => none
  | fuel + 1 =>
      if subclass = 0 then some false
      else if subclass = superclass then some true
      else
        let _cls := env.superclassOf subclass
        objcIssubclassLoop env subclass superclass fuel

/-- Translation of the while loop of api.py _is_protocol, starting from the
class of the given object: this loop does advance along the superclass
chain.  The Protocol comparison uses the _class_cdata entry for Protocol. -/
def isProtocolLoop (env : RtEnv) (cls : Nat) : Nat → Option Bool
  | 0 => none
  | fuel + 1 =>
      if cls = 0 then some false
      else if cls = classCdata env ("Protocol") then some true
      else isProtocolLoop env (env.superclassOf cls) fuel

/-- Translation of api.py _is_protocol: walk the superclass chain of
object_getClass(ptr) looking for the Protocol class. -/
def isProtocolModel (env : RtEnv) (ptr : Nat) (fuel : Nat) : Option Bool :=
  isProtocolLoop env (env.classOf ptr) fuel

/-- A native Python value passed to coerce (the ID case carries the address
of the proxy's Objective-C class, obj.cls.cdata).  None of the native
variants has an attribute named classes. -/
inductive PyVal where
  | idProxy (clsAddr : Nat)
  | pyStr (s : String)
  | pyBytes (size : Nat)
  | pyMapping (entries : List (Nat × Nat))
  | pySet (elems : List Nat)
  | pyIterable (elems : List Nat)
  | pyOther
  deriving Repr

/-- Whether the Python value has an attribute named classes: the expression
obj.classes.NSObject in coerce performs this attribute access on the value
being converted, and every native value the function is meant to handle
lacks it. -/
def PyVal.hasClassesAttr : PyVal → Bool := fun _ => false

/-- Which conversion helper a coerce call ended in, with the target class
forwarded to it (to_string for str, to_data for bytes, to_dictionary for
mappings, to_set for sets, to_array for other iterables). -/
inductive CoerceResult where
  | unchanged (clsAddr : Nat)
  | viaToString (target : Option Nat)
  | viaToData (target : Option Nat)
  | viaToArray (target : Option Nat)
  | viaToDictionary (target : Option Nat)
  | viaToSet (target : Option Nat)
  deriving DecidableEq, Repr

/-- The isinstance dispatch of coerce when no target class was given (or the
target equals NSObject): convert by the native kind of the value. -/
def coerceKindDispatch (obj : PyVal) : Except PyError CoerceResult :=
  match obj with
  | .pyStr _ => .ok (.viaToString none)
  | .pyBytes _ => .ok (.viaToData none)
  | .pyMapping _ => .ok (.viaToDictionary none)
  | .pySet _ => .ok (.viaToSet none)
  | .pyIterable _ => .ok (.viaToArray none)
  | _ => .error .typeError

/-- Translation of the elif chain of coerce for an explicit target class
(api.py lines 749 through 760): subclass tests against the _class_cdata
entries for NSString, NSData, NSArray, NSDictionary and NSSet in that order;
the NSDictionary arm of the source calls to_string, and each test runs the
_objc_issubclass loop, so none means that loop was still running. -/
def coerceTypedBranch (env : RtEnv) (fuel : Nat) (c : Nat) :
    Option (Except PyError CoerceResult) :=
  match objcIssubclassLoop env c (classCdata env ("NSString")) fuel with
  | none => none
  | some true => some (.ok (.viaToString (some c)))
  | some false =>
  match objcIssubclassLoop env c (classCdata env ("NSData")) fuel with
  | none => none
  | some true => some (.ok (.viaToData (some c)))
  | some false =>
  match objcIssubclassLoop env c (classCdata env ("NSArray")) fuel with
  | none => none
  | some true => some (.ok (.viaToArray (some c)))
  | some false =>
  match objcIssubclassLoop env c (classCdata env ("NSDictionary")) fuel with
  | none => none
  | some true => some (.ok (.viaToString (some c)))
  | some false =>
  match objcIssubclassLoop env c (classCdata env ("NSSet")) fuel with
  | none => none
  | some true => some (.ok (.viaToSet (some c)))
  | some false => some (.error (.valueError .unknownConversion))

/-- Translation of api.py coerce.  An ID proxy is returned unchanged after
an optional subclass check against the target class (TypeError on failure);
for a native value with no target class the kind dispatch runs; for a
native value with a target class the guard cls == obj.classes.NSObject is
evaluated first, which looks up the attribute named classes on the value
being converted and therefore raises AttributeError for every native value
(the dead arm behind that guard is kept for fidelity to the source text). -/
def coerceModel (env : RtEnv) (fuel : Nat) (obj : PyVal) (cls : Option Nat) :
    Option (Except PyError CoerceResult) :=
  match obj with
  | .idProxy objCls =>
      match cls with
      | none => some (.ok (.unchanged objCls))
      | some c =>
          match objcIssubclassLoop env objCls c fuel with
          | none => none
          | some true => some (.ok (.unchanged objCls))
          | some false => some (.error .typeError)
  | _ =>
      match cls with
      | none => some (coerceKindDispatch obj)
      | some c =>
          if obj.hasClassesAttr then
            if c = env.getClassByName ("NSObject") then some (coerceKindDispatch obj)
            else coerceTypedBranch env fuel c
          else some (.error .attributeError)

/-- The kind of proxy object a constructor produces. -/
inductive ProxyKind where
  | objectKind
  | classKind
  | metaclassKind
  | protocolKind
  deriving DecidableEq, Repr

/-- The dispatch tail of ID.__new__ once the class dispatch did not fire:
when the requested Python class is not a Protocol subclass, _is_protocol is
consulted and a Protocol proxy is produced on success (Protocol.__new__
re-checks _is_protocol, which succeeds again); otherwise the proxy has the
requested kind. -/
def idNewFinal (env : RtEnv) (requested : ProxyKind) (addr : Nat) (fuel : Nat) :
    Option (Except PyError ProxyKind) :=
  if requested = .protocolKind then some (.ok requested)
  else
    match isProtocolModel env addr fuel with
    | none => none
    | some true => some (.ok .protocolKind)
    | some false => some (.ok requested)

/-- Translation of the cdata arm of MetaClass.__new__: the address must be a
class and a metaclass, otherwise ValueError; then Class.__new__ runs with
cls = MetaClass (its metaclass dispatch is skipped) and falls through to
ID.__new__. -/
def metaclassNewFromCdata (env : RtEnv) (addr : Nat) (fuel : Nat) :
    Option (Except PyError (Option ProxyKind)) :=
  if addr = 0 then some (.ok none)
  else if !(env.isClass addr && env.isMeta addr) then
    some (.error (.valueError .notAMetaclass))
  else
    match idNewFinal env .metaclassKind addr fuel with
    | none => none
    | some (.error e) => some (.error e)
    | some (.ok k) => some (.ok (some k))

/-- Translation of the cdata arm of Class.__new__: NULL gives no proxy, a
non-class address raises ValueError, a metaclass address dispatches to
MetaClass, and otherwise ID.__new__ runs with cls = Class. -/
def classNewFromCdata (env : RtEnv) (addr : Nat) (fuel : Nat) :
    Option (Except PyError (Option ProxyKind)) :=
  if addr = 0 then some (.ok none)
  else if !env.isClass addr then some (.error (.valueError .notAClass))
  else if env.isMeta addr then metaclassNewFromCdata env addr fuel
  else
    match idNewFinal env .classKind addr fuel with
    | none => none
    | some (.error e) => some (.error e)
    | some (.ok k) => some (.ok (some k))

/-- Translation of the cdata arm of Protocol.__new__: NULL gives no proxy,
an address that is not a Protocol instance raises ValueError, and otherwise
ID.__new__ runs with cls = Protocol. -/
def protocolNewFromCdata (env : RtEnv) (addr : Nat) (fuel : Nat) :
    Option (Except PyError (Option ProxyKind)) :=
  if addr = 0 then some (.ok none)
  else
    match isProtocolModel env addr fuel with
    | none => none
    | some false => some (.error (.valueError .notAProtocolInstance))
    | some true =>
        match idNewFinal env .protocolKind addr fuel with
        | none => none
        | some (.error e) => some (.error e)
        | some (.ok k) => some (.ok (some k))

/-- Translation of api.py _should_retain_result: the object result of a
method is retained unless the selector name starts with copy, init,
mutableCopy or new. -/
def shouldRetainResult (selName : String) : Bool :=
  !(selName.startsWith ("copy") || selName.startsWith ("init")
    || selName.startsWith ("mutableCopy") || selName.startsWith ("new"))

/-- A receiver argument for Method.__call__: a value that ID accepts, or one
it rejects with TypeError. -/
inductive Receiver where
  | acceptable (addr : Nat)
  | rejected
  deriving Repr

/-- Translation of Method.__call__.  The body first converts the receiver
through ID; the next statement is sel = Selector(sel), where sel is a local
variable of the function that no prior statement assigned (the function's
parameters are receiver, args, restype and argtypes), so evaluating the
right-hand side raises UnboundLocalError before the signature is decoded,
method_invoke is resolved, or anything is sent. -/
def methodCallModel (receiver : Receiver) (restype : Option CType)
    (argtypes : Option (List ArgType)) : Except PyError CoerceResult :=
  match receiver with
  | .rejected => .error .typeError
  | .acceptable _ =>
      let _ := restype
      let _ := argtypes
      .error .unboundLocalError

/-- The Python str.replace translation used by ID.__getattr__: every
underscore character becomes a colon. -/
def underscoresToColons (s : String) : String :=
  ⟨s.data.map (fun c => if c = '_' then ':' else c)⟩

/-- First-match lookup in an association list, modelling a Python mapping
subscript that raises KeyError on a miss. -/
def lookupAssoc {V : Type} (m : List (String × V)) (k : String) : Option V :=
  (m.find? (fun p => p.1 == k)).map (fun p => p.2)

/-- Translation of ID.__getattr__ (invoked when ordinary attribute lookup
failed): consult the instance's properties mapping under the exact name,
then the methods mapping under the name with underscores replaced by
colons, and raise AttributeError when both miss. -/
def idGetattr {V : Type} (props methods : List (String × V)) (name : String) :
    Except PyError V :=
  match lookupAssoc props name with
  | some v => .ok v
  | none =>
      match lookupAssoc methods (underscoresToColons name) with
      | some v => .ok v
      | none => .error .attributeError

/-- A MappingChain value: the internal _mappings list, nearest level first
in the intended design.  Each level is an association list with distinct
keys (a Python dict). -/
structure MapChain (α β : Type) where
  mappings : List (List (α × β))

/-- One constructor argument of MappingChain: another chain or a plain
mapping. -/
inductive ChainArg (α β : Type) where
  | chain (c : MapChain α β)
  | base (m : List (α × β))

/-- Translation of MappingChain.__init__: constituents are appended in
order, a constituent that is itself a MappingChain contributes its internal
_mappings list (already reversed) in place, and the accumulated list is
reversed at the end. -/
def mapChainInit {α β : Type} (args : List (ChainArg α β)) : MapChain α β :=
  ⟨(args.foldl (fun acc a =>
      match a with
      | .chain c => acc ++ c.mappings
      | .base m => acc ++ [m]) []).reverse⟩

/-- Translation of MappingChain.__getitem__: return the entry of the first
constituent mapping that contains the key, KeyError when none does. -/
def chainGet {α β : Type} [BEq α] (c : MapChain α β) (k : α) : Except PyError β :=
  match c.mappings.findSome? (fun m => (m.find? (fun p => p.1 == k)).map (fun p => p.2)) with
  | some v => .ok v
  | none => .error .keyError

/-- The deduplication loop of MappingChain.__iter__: keys already seen are
skipped, first occurrence kept. -/
def chainIterGo {α : Type} [DecidableEq α] (seen : List α) : List α → List α
  | [] => []
  | k :: rest =>
      if k ∈ seen then chainIterGo seen rest
      else k :: chainIterGo (k :: seen) rest

/-- Translation of MappingChain.__iter__: iterate the constituent mappings
in order, yielding each key the first time it is seen. -/
def chainIter {α β : Type} [DecidableEq α] (c : MapChain α β) : List α :=
  chainIterGo [] ((c.mappings.map (fun m => m.map Prod.fst)).flatten)

/-- Translation of MappingChain.__len__: the sum of the constituent
mappings' lengths. -/
def chainLen {α β : Type} (c : MapChain α β) : Nat :=
  (c.mappings.map List.length).sum

/-- A runtime environment in which no address is a class, no superclass
links exist and every class-by-name lookup fails. -/
def rtEnvPlain : RtEnv :=
  ⟨fun _ => 0, fun _ => 0, fun _ => false, fun _ => false, fun _ => 0⟩

/-- A concrete runtime environment for the coercion claims: the well-known
classes NSString, NSData, NSArray, NSDictionary, NSSet, NSObject and
Protocol live at addresses 1 through 7 and the class at address 10 is a
genuine NSDictionary subclass (10 to 4 to 6 to NULL). -/
def rtEnvCoerce : RtEnv where
  getClassByName := fun s =>
    if s = "NSString" then 1 else if s = "NSData" then 2
    else if s = "NSArray" then 3 else if s = "NSDictionary" then 4
    else if s = "NSSet" then 5 else if s = "NSObject" then 6
    else if s = "Protocol" then 7 else 0
  superclassOf := fun a => if a = 10 then 4 else if a = 4 then 6 else 0
  isClass := fun a => a = 1 ∨ a = 2 ∨ a = 3 ∨ a = 4 ∨ a = 5 ∨ a = 6 ∨ a = 7 ∨ a = 10
  isMeta := fun _ => false
  classOf := fun _ => 0

/-- Nontermination of the _objc_issubclass loop off the trivial cases: with
a non-null start different from the target, no amount of fuel produces an
answer. -/
theorem objcIssubclassLoop_stuck (env : RtEnv) (sub sup fuel : Nat)
    (h0 : sub ≠ 0) (hs : sub ≠ sup) :
    objcIssubclassLoop env sub sup fuel = none := by
  induction fuel with
  | zero => rfl
  | succ f ih => simp [objcIssubclassLoop, h0, hs, ih]

theorem lookupCache_eq_none_iff (c : List (Nat × Nat)) (a : Nat) :
    lookupCache c a = none ↔ ∀ p ∈ c, p.1 ≠ a := by
  simp [lookupCache, List.find?_eq_none]

theorem keyFilter_eq_nil (c : List (Nat × Nat)) (a : Nat)
    (h : lookupCache c a = none) : c.filter (fun p => p.1 == a) = [] := by
  rw [lookupCache_eq_none_iff] at h
  simp only [List.filter_eq_nil_iff]
  intro p hp
  simpa using h p hp

theorem keyFilter_length_one (c : List (Nat × Nat)) (a : Nat) (p : Nat)
    (hnd : (c.map Prod.fst).Nodup) (h : lookupCache c a = some p) :
    (c.filter (fun q => q.1 == a)).length = 1 := by
  induction c with
  | nil => simp [lookupCache] at h
  | cons x c ih =>
      rw [List.map_cons, List.nodup_cons] at hnd
      by_cases hx : x.1 = a
      · have : c.filter (fun q => q.1 == a) = [] := by
          simp only [List.filter_eq_nil_iff]
          intro q hq
          simp only [beq_iff_eq]
          intro hqa
          have hmem : q.1 ∈ List.map Prod.fst c := List.mem_map_of_mem Prod.fst hq
          rw [hqa, ← hx] at hmem
          exact hnd.1 hmem
        simp [hx, this]
      · rw [lookupCache, List.find?_cons] at h
        have hxb : (x.1 == a) = false := by simp [hx]
        rw [hxb] at h
        simpa [hx] using ih hnd.2 h

theorem keyFilter_after_remove_self (c : List (Nat × Nat)) (a : Nat) :
    (c.filter (fun p => p.1 != a)).filter (fun q => q.1 == a) = [] := by
  simp only [List.filter_eq_nil_iff, List.mem_filter]
  intro q hq
  have := hq.2
  simp only [bne_iff_ne, ne_eq] at this
  simp [this]

theorem keyFilter_after_remove_other (c : List (Nat × Nat)) (a b : Nat) (hab : a ≠ b) :
    (c.filter (fun p => p.1 != b)).filter (fun q => q.1 == a)
      = c.filter (fun q => q.1 == a) := by
  induction c with
  | nil => rfl
  | cons x c ih =>
      by_cases hx : x.1 = a
      · have h1 : (x.1 != b) = true := by simp [hx, hab]
        simp [List.filter_cons, h1, hx, ih, hab]
      · by_cases hb : x.1 = b
        · simp [List.filter_cons, hb, hx, ih, Ne.symm hab]
        · have h1 : (x.1 != b) = true := by simp [hb]
          simp [List.filter_cons, h1, hx, ih]

theorem bump_self (f : Nat → Nat) (a : Nat) : bump f a a = f a + 1 := by
  simp [bump]

theorem bump_other (f : Nat → Nat) (a x : Nat) (h : x ≠ a) : bump f a x = f x := by
  simp [bump, h]

theorem idNew_null (s : InternState) (retain : Bool) : idNew s 0 retain = (none, s) := by
  simp [idNew]

theorem idNew_hit_true (s : InternState) (addr p : Nat) (h0 : addr ≠ 0)
    (hl : lookupCache s.cache addr = some p) : idNew s addr true = (some p, s) := by
  simp [idNew, h0, hl]

theorem idNew_hit_false (s : InternState) (addr p : Nat) (h0 : addr ≠ 0)
    (hl : lookupCache s.cache addr = some p) :
    idNew s addr false = (some p,
      { s with transfersIn := bump s.transfersIn addr,
               releaseCalls := bump s.releaseCalls addr }) := by
  simp [idNew, h0, hl]

theorem idNew_miss_true (s : InternState) (addr : Nat) (h0 : addr ≠ 0)
    (hl : lookupCache s.cache addr = none) :
    idNew s addr true = (some s.nextId,
      { s with nextId := s.nextId + 1, cache := (addr, s.nextId) :: s.cache,
               retainCalls := bump s.retainCalls addr }) := by
  simp [idNew, h0, hl]

theorem idNew_miss_false (s : InternState) (addr : Nat) (h0 : addr ≠ 0)
    (hl : lookupCache s.cache addr = none) :
    idNew s addr false = (some s.nextId,
      { s with nextId := s.nextId + 1, cache := (addr, s.nextId) :: s.cache,
               transfersIn := bump s.transfersIn addr }) := by
  simp [idNew, h0, hl]

theorem internInv_init : InternInv initIntern := by
  refine ⟨by simp [initIntern], by simp [initIntern], ?_⟩
  intro a
  simp [initIntern, attributed, liveCount]

theorem internInv_idNew (s : InternState) (addr : Nat) (retain : Bool)
    (h : InternInv s) : InternInv (idNew s addr retain).2 := by
  obtain ⟨hnd, hnz, hcnt⟩ := h
  by_cases h0 : addr = 0
  · subst h0
    rw [idNew_null]
    exact ⟨hnd, hnz, hcnt⟩
  · cases hl : lookupCache s.cache addr with
    | some p =>
        cases retain with
        | true =>
            rw [idNew_hit_true s addr p h0 hl]
            exact ⟨hnd, hnz, hcnt⟩
        | false =>
            rw [idNew_hit_false s addr p h0 hl]
            refine ⟨hnd, hnz, ?_⟩
            intro a
            by_cases ha : a = addr
            · subst ha
              have hc := hcnt a
              simp only [attributed, liveCount] at hc ⊢
              simp only [bump_self]
              omega
            · have hc := hcnt a
              simp only [attributed, liveCount] at hc ⊢
              simp only [bump_other _ _ _ ha]
              exact hc
    | none =>
        have hnotin : addr ∉ s.cache.map Prod.fst := by
          rw [lookupCache_eq_none_iff] at hl
          intro hmem
          obtain ⟨q, hq, hqe⟩ := List.mem_map.mp hmem
          exact hl q hq hqe
        have hnil := keyFilter_eq_nil s.cache addr hl
        cases retain with
        | true =>
            rw [idNew_miss_true s addr h0 hl]
            refine ⟨?_, ?_, ?_⟩
            · rw [List.map_cons, List.nodup_cons]
              exact ⟨hnotin, hnd⟩
            · intro q hq
              rcases List.mem_cons.mp hq with hq1 | hq2
              · simp [hq1, h0]
              · exact hnz q hq2
            · intro a
              by_cases ha : a = addr
              · subst ha
                have hc := hcnt a
                simp only [attributed, liveCount] at hc ⊢
                simp only [bump_self, List.filter_cons]
                simp only [beq_self_eq_true, if_true, List.length_cons]
                rw [hnil] at hc ⊢
                simp at hc ⊢
                omega
              · have hc := hcnt a
                simp only [attributed, liveCount] at hc ⊢
                simp only [bump_other _ _ _ ha, List.filter_cons]
                have hba : (addr == a) = false := by
                  simp only [beq_eq_false_iff_ne, ne_eq]
                  intro hh
                  exact ha hh.symm
                simp only [hba, if_false]
                exact hc
        | false =>
            rw [idNew_miss_false s addr h0 hl]
            refine ⟨?_, ?_, ?_⟩
            · rw [List.map_cons, List.nodup_cons]
              exact ⟨hnotin, hnd⟩
            · intro q hq
              rcases List.mem_cons.mp hq with hq1 | hq2
              · simp [hq1, h0]
              · exact hnz q hq2
            · intro a
              by_cases ha : a = addr
              · subst ha
                have hc := hcnt a
                simp only [attributed, liveCount] at hc ⊢
                simp only [bump_self, List.filter_cons]
                simp only [beq_self_eq_true, if_true, List.length_cons]
                rw [hnil] at hc ⊢
                simp at hc ⊢
                omega
              · have hc := hcnt a
                simp only [attributed, liveCount] at hc ⊢
                simp only [bump_other _ _ _ ha, List.filter_cons]
                have hba : (addr == a) = false := by
                  simp only [beq_eq_false_iff_ne, ne_eq]
                  intro hh
                  exact ha hh.symm
                simp only [hba, if_false]
                exact hc

theorem internInv_idDel (s : InternState) (addr p : Nat) (h : InternInv s)
    (hl : lookupCache s.cache addr = some p) : InternInv (idDel s addr) := by
  obtain ⟨hnd, hnz, hcnt⟩ := h
  refine ⟨?_, ?_, ?_⟩
  · exact hnd.sublist ((List.filter_sublist _).map Prod.fst)
  · intro q hq
    exact hnz q (List.mem_of_mem_filter hq)
  · intro a
    by_cases ha : a = addr
    · subst ha
      have hone := keyFilter_length_one s.cache a p hnd hl
      have hc := hcnt a
      simp only [attributed, liveCount, idDel] at hc ⊢
      rw [keyFilter_after_remove_self, hone] at *
      simp only [bump_self, List.length_nil]
      omega
    · have hc := hcnt a
      simp only [attributed, liveCount, idDel] at hc ⊢
      rw [keyFilter_after_remove_other s.cache a addr ha, bump_other _ _ _ ha]
      exact hc

theorem idNewExisting_false (s : InternState) (addr : Nat) :
    idNewExisting s addr false
      = { s with transfersIn := bump s.transfersIn addr,
                 releaseCalls := bump s.releaseCalls addr } := by
  simp [idNewExisting]

theorem internInv_idNewExisting (s : InternState) (addr : Nat) (retain : Bool)
    (h : InternInv s) : InternInv (idNewExisting s addr retain) := by
  obtain ⟨hnd, hnz, hcnt⟩ := h
  cases retain with
  | true => exact ⟨hnd, hnz, hcnt⟩
  | false =>
      rw [idNewExisting_false]
      refine ⟨hnd, hnz, ?_⟩
      intro a
      by_cases ha : a = addr
      · subst ha
        have hc := hcnt a
        simp only [attributed, liveCount] at hc ⊢
        simp only [bump_self]
        omega
      · have hc := hcnt a
        simp only [attributed, liveCount] at hc ⊢
        simp only [bump_other _ _ _ ha]
        exact hc

theorem idNew_idem (s : InternState) (addr : Nat) (retain retain₂ : Bool) (p : Nat)
    (h : (idNew s addr retain).1 = some p) :
    (idNew (idNew s addr retain).2 addr retain₂).1 = some p := by
  by_cases h0 : addr = 0
  · subst h0
    rw [idNew_null] at h
    cases h
  · cases hl : lookupCache s.cache addr with
    | some q =>
        have hcache : (idNew s addr retain).2.cache = s.cache := by
          cases retain with
          | true => rw [idNew_hit_true s addr q h0 hl]
          | false => rw [idNew_hit_false s addr q h0 hl]
        have hres : (idNew s addr retain).1 = some q := by
          cases retain with
          | true => rw [idNew_hit_true s addr q h0 hl]
          | false => rw [idNew_hit_false s addr q h0 hl]
        rw [hres] at h
        cases h
        cases retain₂ with
        | true => rw [idNew_hit_true _ addr p h0 (by rw [hcache]; exact hl)]
        | false => rw [idNew_hit_false _ addr p h0 (by rw [hcache]; exact hl)]
    | none =>
        have hcache : (idNew s addr retain).2.cache = (addr, s.nextId) :: s.cache := by
          cases retain with
          | true => rw [idNew_miss_true s addr h0 hl]
          | false => rw [idNew_miss_false s addr h0 hl]
        have hres : (idNew s addr retain).1 = some s.nextId := by
          cases retain with
          | true => rw [idNew_miss_true s addr h0 hl]
          | false => rw [idNew_miss_false s addr h0 hl]
        rw [hres] at h
        cases h
        have hl₂ : lookupCache (idNew s addr retain).2.cache addr = some s.nextId := by
          rw [hcache]
          simp [lookupCache, List.find?_cons]
        cases retain₂ with
        | true => rw [idNew_hit_true _ addr s.nextId h0 hl₂]
        | false => rw [idNew_hit_false _ addr s.nextId h0 hl₂]

theorem selNew_idem (env : SelEnv) (ss : SelInternState) (addr q : Nat)
    (h : (selNew env ss addr).1 = .ok (some q)) :
    (selNew env (selNew env ss addr).2 addr).1 = .ok (some q) := by
  by_cases h0 : addr = 0
  · subst h0
    simp [selNew] at h
  · cases hl : lookupCache ss.cache addr with
    | some p =>
        have hs : selNew env ss addr = (.ok (some p), ss) := by
          simp [selNew, h0, hl]
        rw [hs] at h ⊢
        simp at h
        subst h
        simp [selNew, h0, hl]
    | none =>
        cases hm : env.isMapped addr with
        | false =>
            have hs : (selNew env ss addr).1 = .error (.valueError .invalidSelector) := by
              simp [selNew, h0, hl, hm]
            rw [hs] at h
            cases h
        | true =>
            have hs : selNew env ss addr
                = (.ok (some ss.nextId), ⟨(addr, ss.nextId) :: ss.cache, ss.nextId + 1⟩) := by
              simp [selNew, h0, hl, hm]
            rw [hs] at h ⊢
            simp at h
            subst h
            simp [selNew, h0, lookupCache, List.find?_cons]

/-- C1: interning and ownership of the address-keyed caches.  Repeated
construction for the same non-null address returns the same proxy (for the
object family and, last conjunct, for the selector family); every reachable
state satisfies the ownership invariant that the net retentions held for
each address equal its live proxy count, and the invariant is preserved by
construction, by the already-wrapped branch and by destruction; a fresh
construction with retain intent true retains exactly once and releases
nothing, a cache hit releases exactly once when retain intent is false and
touches nothing otherwise, and destruction of the live proxy releases
exactly once and empties the address's live count. -/
theorem interning_ownership_c1 (s : InternState) (addr : Nat) (retain retain₂ : Bool)
    (p : Nat) (env : SelEnv) (ss : SelInternState) (q : Nat) :
    ((idNew s addr retain).1 = some p →
      (idNew (idNew s addr retain).2 addr retain₂).1 = some p)
    ∧ (InternInv s → ∀ a, attributed s a = (liveCount s a : Int))
    ∧ (InternInv s → InternInv (idNew s addr retain).2)
    ∧ (InternInv s → InternInv (idNewExisting s addr retain))
    ∧ (addr ≠ 0 → lookupCache s.cache addr = none →
        (idNew s addr true).2.retainCalls = bump s.retainCalls addr
        ∧ (idNew s addr true).2.releaseCalls = s.releaseCalls
        ∧ (idNew s addr false).2.retainCalls = s.retainCalls)
    ∧ (addr ≠ 0 → lookupCache s.cache addr = some p →
        (idNew s addr false).2.releaseCalls = bump s.releaseCalls addr
        ∧ (idNew s addr false).2.retainCalls = s.retainCalls
        ∧ (idNew s addr true).2.releaseCalls = s.releaseCalls
        ∧ (idNew s addr true).2.retainCalls = s.retainCalls)
    ∧ (InternInv s → lookupCache s.cache addr = some p →
        InternInv (idDel s addr)
        ∧ (idDel s addr).releaseCalls = bump s.releaseCalls addr
        ∧ liveCount (idDel s addr) addr = 0)
    ∧ ((selNew env ss addr).1 = .ok (some q) →
        (selNew env (selNew env ss addr).2 addr).1 = .ok (some q)) := by
  refine ⟨idNew_idem s addr retain retain₂ p, ?_, internInv_idNew s addr retain,
    internInv_idNewExisting s addr retain, ?_, ?_, ?_, selNew_idem env ss addr q⟩
  · intro h
    exact h.2.2
  · intro h0 hl
    rw [idNew_miss_true s addr h0 hl, idNew_miss_false s addr h0 hl]
    exact ⟨rfl, rfl, rfl⟩
  · intro h0 hl
    rw [idNew_hit_true s addr p h0 hl, idNew_hit_false s addr p h0 hl]
    exact ⟨rfl, rfl, rfl, rfl⟩
  · intro h hl
    refine ⟨internInv_idDel s addr p h hl, rfl, ?_⟩
    simp only [liveCount, idDel]
    rw [keyFilter_after_remove_self]
    rfl

/-- Witness for C1 on a concrete run: a fresh construction at address 5
with retain intent true, a second construction returning the same proxy, a
balancing release on the non-retaining hit, destruction emptying the live
count, and a selector interned twice at address 7 yielding the same proxy. -/
theorem interning_ownership_c1_witness :
    (idNew (idNew initIntern 5 true).2 5 false).1 = some 0
    ∧ (∀ a, attributed initIntern a = (liveCount initIntern a : Int))
    ∧ InternInv (idNew initIntern 5 true).2
    ∧ InternInv (idNewExisting initIntern 5 true)
    ∧ (idNew initIntern 5 true).2.retainCalls = bump initIntern.retainCalls 5
    ∧ (idNew (idNew initIntern 5 true).2 5 false).2.releaseCalls
        = bump (idNew initIntern 5 true).2.releaseCalls 5
    ∧ InternInv (idDel (idNew initIntern 5 true).2 5)
    ∧ liveCount (idDel (idNew initIntern 5 true).2 5) 5 = 0
    ∧ (selNew ⟨fun _ => true, fun _ => 0⟩
        (selNew ⟨fun _ => true, fun _ => 0⟩ ⟨[], 0⟩ 7).2 7).1 = .ok (some 0) := by
  have base := interning_ownership_c1 initIntern 5 true false 0
    ⟨fun _ => true, fun _ => 0⟩ ⟨[], 0⟩ 0
  have inv1 : InternInv (idNew initIntern 5 true).2 := base.2.2.1 internInv_init
  have step := interning_ownership_c1 (idNew initIntern 5 true).2 5 true false 0
    ⟨fun _ => true, fun _ => 0⟩ ⟨[], 0⟩ 0
  refine ⟨base.1 rfl, base.2.1 internInv_init, inv1,
    base.2.2.2.1 internInv_init,
    (base.2.2.2.2.1 (by decide) rfl).1,
    (step.2.2.2.2.2.1 (by decide) rfl).1,
    (step.2.2.2.2.2.2.1 inv1 rfl).1,
    (step.2.2.2.2.2.2.1 inv1 rfl).2.2,
    step.2.2.2.2.2.2.2 rfl⟩

/-- C2: the structure-return variant of a polymorphic dispatch function is
selected exactly when the target is the non-LP64 variant and the return
type is a direct, non-void, non-pointer struct type; never for scalars,
pointers (including the id family), arrays, floating point, or unions, and
never on the LP64 variant. -/
theorem stret_selection_c2 (lp64 : Bool) (name s nm : String) (t elt : CType)
    (n : Nat) (fs : List CField) :
    mustUseStret true t = false
    ∧ mustUseStret false t = (!t.isVoid && decide (t.kind = CKind.structKind))
    ∧ mustUseStret false (CType.incomplete false nm) = true
    ∧ mustUseStret false (CType.complete false nm fs) = true
    ∧ mustUseStret false CType.void = false
    ∧ mustUseStret lp64 (CType.scalar s) = false
    ∧ mustUseStret lp64 (CType.pointer elt) = false
    ∧ mustUseStret lp64 CType.idType = false
    ∧ mustUseStret lp64 (CType.array elt n) = false
    ∧ mustUseStret lp64 (CType.incomplete true nm) = false
    ∧ mustUseStret lp64 (CType.complete true nm fs) = false
    ∧ polymorphicName lp64 name t = (if mustUseStret lp64 t then name ++ "_stret" else name) := by
  refine ⟨?_, rfl, rfl, rfl, rfl, ?_, ?_, ?_, ?_, ?_, ?_, rfl⟩
  · simp [mustUseStret]
  all_goals cases lp64 <;> simp [mustUseStret, CType.isVoid, CType.kind]

/-- C3: a dynamic send validates the selector and the argument counts before
the polymorphic entry point is resolved or invoked: an unmapped selector is
an invalid-selector ValueError, a non-variadic argtypes list demands the
argument count equal both the argtypes count and the selector's colon
count, and every failing send performs no external effect at all. -/
theorem msgSend_checks_c3 (env : SelEnv) (lp64 : Bool) (obj op numArgs : Nat)
    (restype : CType) (argtypes : List ArgType) :
    (env.isMapped op = false →
      objcMsgSendModel env lp64 obj op numArgs restype argtypes
        = (.error (.valueError .invalidSelector), []))
    ∧ (env.isMapped op = true → isVariadic argtypes = false →
       numArgs ≠ argtypes.length →
      objcMsgSendModel env lp64 obj op numArgs restype argtypes
        = (.error (.valueError .argCountVsArgtypes), []))
    ∧ (env.isMapped op = true → isVariadic argtypes = false →
       numArgs = argtypes.length → numArgs ≠ env.colonCount op →
      objcMsgSendModel env lp64 obj op numArgs restype argtypes
        = (.error (.valueError .argCountVsColons), []))
    ∧ (∀ e, (objcMsgSendModel env lp64 obj op numArgs restype argtypes).1 = .error e →
      (objcMsgSendModel env lp64 obj op numArgs restype argtypes).2 = []) := by
  refine ⟨?_, ?_, ?_, ?_⟩
  · intro h
    simp [objcMsgSendModel, checkArgcounts, h]
  · intro h hv hn
    simp [objcMsgSendModel, checkArgcounts, h, hv, hn]
  · intro h hv hn hc
    rw [hn] at hc
    simp [objcMsgSendModel, checkArgcounts, h, hv, hn, hc]
  · intro e
    unfold objcMsgSendModel
    cases checkArgcounts env op numArgs argtypes with
    | error e₂ => intro; rfl
    | ok u =>
        cases u
        cases makeFunctionPtrChecks restype
            (ArgType.concrete .idType :: ArgType.concrete .selType :: argtypes) with
        | error e₃ => intro; rfl
        | ok u₂ => cases u₂; intro h; simp at h

/-- Witness for C3 at concrete inputs: an unmapped selector, an argument
count differing from the argtypes count, and an argument count differing
from the selector's colon count each fail with the stated ValueError and an
empty external-effect trace. -/
theorem msgSend_checks_c3_witness :
    objcMsgSendModel ⟨fun _ => false, fun _ => 0⟩ true 1 2 0 CType.void []
      = (.error (.valueError .invalidSelector), [])
    ∧ objcMsgSendModel ⟨fun _ => true, fun _ => 1⟩ true 1 2 0 CType.void
        [ArgType.concrete CType.idType]
      = (.error (.valueError .argCountVsArgtypes), [])
    ∧ objcMsgSendModel ⟨fun _ => true, fun _ => 1⟩ true 1 2 2 CType.void
        [ArgType.concrete CType.idType, ArgType.concrete CType.idType]
      = (.error (.valueError .argCountVsColons), []) :=
  ⟨(msgSend_checks_c3 ⟨fun _ => false, fun _ => 0⟩ true 1 2 0 CType.void []).1 rfl,
   (msgSend_checks_c3 ⟨fun _ => true, fun _ => 1⟩ true 1 2 0 CType.void
      [ArgType.concrete CType.idType]).2.1 rfl rfl (by decide),
   (msgSend_checks_c3 ⟨fun _ => true, fun _ => 1⟩ true 1 2 2 CType.void
      [ArgType.concrete CType.idType, ArgType.concrete CType.idType]).2.2.1 rfl rfl rfl
      (by decide)⟩

/-- C4: the type descriptor converter rejects internal-only types at top
level with TypeError, unwraps qualified wrappers, maps the unknown type to
the fixed opaque placeholder, converts pointers and arrays recursively with
array lengths kept, turns a named fieldless struct or union into an
incomplete type distinct from the fully unknown placeholders, names unnamed
fields positionally, turns a width-1 bit-field into a single-bit bool field
and any other width into an unsigned field of that width, and gives an
empty field list the zero-sized placeholder field. -/
theorem encodingConverter_c4 (t : EncType) (f : EncField) (w i n : Nat)
    (s nm : String) (nm? fname : Option String) (rest : EncFieldList) :
    encodingTypeToCffi (.bitField w) = .error .typeError
    ∧ encodingTypeToCffi (.fieldEnc f) = .error .typeError
    ∧ encodingTypeToCffi (.qualified t) = encodingTypeToCffi t
    ∧ encodingTypeToCffi .unknown = .ok (.incomplete false ("DGUnknownType"))
    ∧ encodingTypeToCffi (.pointer t) = (encodingTypeToCffi t).map CType.pointer
    ∧ encodingTypeToCffi (.array t n) = (encodingTypeToCffi t).map (fun ct => .array ct n)
    ∧ encodingTypeToCffi (.structEnc (some nm) none) = .ok (.incomplete false nm)
    ∧ encodingTypeToCffi (.unionEnc (some nm) none) = .ok (.incomplete true nm)
    ∧ (nm ≠ "DGUnknownStruct" → nm ≠ "DGUnknownType" →
        (encodingTypeToCffi (.structEnc (some nm) none) ≠ encodingTypeToCffi (.structEnc none none)
          ∧ encodingTypeToCffi (.structEnc (some nm) none) ≠ encodingTypeToCffi .unknown))
    ∧ (nm ≠ "DGUnknownUnion" →
        encodingTypeToCffi (.unionEnc (some nm) none) ≠ encodingTypeToCffi (.unionEnc none none))
    ∧ fieldsToCffi (.cons (.mk fname (.bitField w)) rest) i
      = (fieldsToCffi rest (i + 1)).map (fun cfs =>
          (if w = 1 then CField.bitfield (fname.getD ("_field_" ++ toString i)) true 1
           else CField.bitfield (fname.getD ("_field_" ++ toString i)) false w) :: cfs)
    ∧ fieldsToCffi (.cons (.mk none (.scalar s)) rest) i
      = (fieldsToCffi rest (i + 1)).map (fun cfs =>
          CField.plain ("_field_" ++ toString i) (.scalar s) :: cfs)
    ∧ encodingTypeToCffi (.structEnc nm? (some .nil))
      = .ok (.complete false (nm?.getD "") [CField.emptyArrayPlaceholder])
    ∧ encodingTypeToCffi (.unionEnc nm? (some .nil))
      = .ok (.complete true (nm?.getD "") [CField.emptyArrayPlaceholder]) := by
  refine ⟨rfl, rfl, ?_, rfl, ?_, ?_, rfl, rfl, ?_, ?_, ?_, ?_, ?_, ?_⟩
  · simp [encodingTypeToCffi]
  · rw [show encodingTypeToCffi (.pointer t)
        = (match encodingTypeToCffi t with
           | .error e => .error e
           | .ok ct => .ok (.pointer ct)) from rfl]
    cases encodingTypeToCffi t <;> rfl
  · rw [show encodingTypeToCffi (.array t n)
        = (match encodingTypeToCffi t with
           | .error e => .error e
           | .ok ct => .ok (.array ct n)) from rfl]
    cases encodingTypeToCffi t <;> rfl
  · intro h1 h2
    refine ⟨?_, ?_⟩ <;> intro h <;>
      simp [encodingTypeToCffi, structUnionToCffi] at h
    · exact h1 h
    · exact h2 h
  · intro h1 h
    simp [encodingTypeToCffi, structUnionToCffi] at h
    exact h1 h
  · cases h : fieldsToCffi rest (i + 1) <;> by_cases hw : w = 1 <;>
      simp [fieldsToCffi, Except.map, hw, h]
  · cases h : fieldsToCffi rest (i + 1) <;>
      simp [fieldsToCffi, encodingTypeToCffi, Except.map, h]
  · cases nm? <;> rfl
  · cases nm? <;> rfl

/-- Witness for C4 at the concrete name foo: the incomplete struct and
union types are distinct from the fully unknown placeholders. -/
theorem encodingConverter_c4_witness :
    (encodingTypeToCffi (.structEnc (some ("foo")) none)
      ≠ encodingTypeToCffi (.structEnc none none))
    ∧ (encodingTypeToCffi (.structEnc (some ("foo")) none) ≠ encodingTypeToCffi .unknown)
    ∧ (encodingTypeToCffi (.unionEnc (some ("foo")) none)
      ≠ encodingTypeToCffi (.unionEnc none none)) := by
  have T := encodingConverter_c4 .unknown (.mk none .unknown) 0 0 0 ("") ("foo") none none .nil
  exact ⟨(T.2.2.2.2.2.2.2.2.1 (by decide) (by decide)).1,
         (T.2.2.2.2.2.2.2.2.1 (by decide) (by decide)).2,
         T.2.2.2.2.2.2.2.2.2.1 (by decide)⟩

/-- C5 evaluated on the failing input, a native mapping with the
NSDictionary subclass at address 10 as target class: the call raises
AttributeError while evaluating cls == obj.classes.NSObject (the mapping
has no attribute named classes); the module table registers the NSData
class object, not the NSDictionary class object, under the NSDictionary
key, and the source's NSDictionary arm calls to_string; with the guard
bypassed the target-class dispatch still never answers for the genuine
NSDictionary subclass because every subclass test runs the stuck walk;
only a call without a target class reaches to_dictionary. -/
theorem coerce_dictionary_c5 :
    (∀ fuel cls, coerceModel rtEnvCoerce fuel (PyVal.pyMapping [(1, 2)]) (some cls)
      = some (.error .attributeError))
    ∧ classCdata rtEnvCoerce ("NSDictionary") = rtEnvCoerce.getClassByName ("NSData")
    ∧ classCdata rtEnvCoerce ("NSDictionary") ≠ rtEnvCoerce.getClassByName ("NSDictionary")
    ∧ (∀ fuel, coerceTypedBranch rtEnvCoerce fuel 10 = none)
    ∧ coerceModel rtEnvCoerce 1 (PyVal.pyMapping [(1, 2)]) none
      = some (.ok (.viaToDictionary none)) := by
  refine ⟨?_, rfl, ?_, ?_, rfl⟩
  · intro fuel cls
    simp [coerceModel, PyVal.hasClassesAttr]
  · simp [classCdata, rtEnvCoerce]
  · intro fuel
    have h1 := objcIssubclassLoop_stuck rtEnvCoerce 10
      (classCdata rtEnvCoerce ("NSString")) fuel (by decide) (by decide)
    simp [coerceTypedBranch, h1]

/-- C6: the superclass walk of _objc_issubclass never advances (the loop
body stores the superclass in an unread local), so for every environment
the loop yields an answer only when the starting class is NULL or equal to
the target; in particular coercing an already wrapped proxy with a target
class that differs from the proxy's class never terminates, for any amount
of fuel, while the equal-class case does return the proxy unchanged. -/
theorem issubclass_loop_c6 (env : RtEnv) (sub sup fuel : Nat) :
    (sub = 0 ∨ sub = sup ∨ objcIssubclassLoop env sub sup fuel = none)
    ∧ coerceModel rtEnvPlain fuel (PyVal.idProxy 3) (some 4) = none
    ∧ coerceModel env 1 (PyVal.idProxy 5) (some 5) = some (.ok (.unchanged 5)) := by
  have loop : ∀ (e : RtEnv) (a b f : Nat), a ≠ 0 → a ≠ b →
      objcIssubclassLoop e a b f = none := by
    intro e a b f ha hb
    induction f with
    | zero => rfl
    | succ f ih => simp [objcIssubclassLoop, ha, hb, ih]
  refine ⟨?_, ?_, ?_⟩
  · by_cases h0 : sub = 0
    · exact Or.inl h0
    · by_cases hs : sub = sup
      · exact Or.inr (Or.inl hs)
      · exact Or.inr (Or.inr (loop env sub sup fuel h0 hs))
  · simp [coerceModel, loop rtEnvPlain 3 4 fuel (by decide) (by decide)]
  · simp [coerceModel, objcIssubclassLoop]

/-- C7: every direct invocation of a Method proxy raises UnboundLocalError
at the statement sel = Selector(sel), whose right-hand side reads a local
variable that is never assigned, regardless of the receiver and of whether
explicit return and argument types were passed; the declared signature is
never decoded and method_invoke is never reached. -/
theorem methodCall_unbound_c7 (addr : Nat) (restype : Option CType)
    (argtypes : Option (List ArgType)) :
    methodCallModel (.acceptable addr) restype argtypes = .error .unboundLocalError := rfl

/-- C8: attribute resolution on an Object-family proxy for a name that is
not an ordinary native attribute: the property table is consulted first
under the exact name, then the method table under the name with every
underscore replaced by a colon, and AttributeError is raised when both
lookups miss. -/
theorem getattr_resolution_c8 {V : Type} (props methods : List (String × V)) (name : String) :
    (∀ v, lookupAssoc props name = some v → idGetattr props methods name = .ok v)
    ∧ (lookupAssoc props name = none →
        ∀ v, lookupAssoc methods (underscoresToColons name) = some v →
          idGetattr props methods name = .ok v)
    ∧ (lookupAssoc props name = none →
        lookupAssoc methods (underscoresToColons name) = none →
          idGetattr props methods name = .error .attributeError) := by
  refine ⟨?_, ?_, ?_⟩
  · intro v h
    simp [idGetattr, h]
  · intro h v h₂
    simp [idGetattr, h, h₂]
  · intro h h₂
    simp [idGetattr, h, h₂]

/-- Witness for C8 at concrete tables: a property hit under the exact name,
a method hit after underscore-to-colon translation, and a miss on both
tables raising AttributeError. -/
theorem getattr_resolution_c8_witness :
    idGetattr [(("alpha" : String), (1 : Nat))] [(("doX:withY:" : String), (2 : Nat))] ("alpha") = .ok 1
    ∧ idGetattr [(("alpha" : String), (1 : Nat))] [(("doX:withY:" : String), (2 : Nat))] ("doX_withY_") = .ok 2
    ∧ idGetattr [(("alpha" : String), (1 : Nat))] [(("doX:withY:" : String), (2 : Nat))] ("missing") = .error .attributeError :=
  ⟨(getattr_resolution_c8 [("alpha", 1)] [("doX:withY:", 2)] ("alpha")).1 1 rfl,
   (getattr_resolution_c8 [("alpha", 1)] [("doX:withY:", 2)] ("doX_withY_")).2.1 rfl 2 (by decide),
   (getattr_resolution_c8 [("alpha", 1)] [("doX:withY:", 2)] ("missing")).2.2 rfl (by decide)⟩

/-- Counterexample to C9 as stated: at address 5 in an environment where 5
is not a class, not a metaclass and not a Protocol instance, each
kind-specific constructor fails with a ValueError, not with the TypeError
the claim requires. -/
theorem kindMismatch_c9_counterexample :
    classNewFromCdata rtEnvPlain 5 1 = some (.error (.valueError .notAClass))
    ∧ classNewFromCdata rtEnvPlain 5 1 ≠ some (.error PyError.typeError)
    ∧ metaclassNewFromCdata rtEnvPlain 5 1 = some (.error (.valueError .notAMetaclass))
    ∧ metaclassNewFromCdata rtEnvPlain 5 1 ≠ some (.error PyError.typeError)
    ∧ protocolNewFromCdata rtEnvPlain 5 1 = some (.error (.valueError .notAProtocolInstance))
    ∧ protocolNewFromCdata rtEnvPlain 5 1 ≠ some (.error PyError.typeError) := by
  refine ⟨rfl, ?_, rfl, ?_, rfl, ?_⟩ <;> intro h <;>
    simp [classNewFromCdata, metaclassNewFromCdata, protocolNewFromCdata,
      isProtocolModel, isProtocolLoop, rtEnvPlain] at h

/-- C9 amended: constructing a kind-specific proxy against a non-null
address that does not denote the requested kind fails with a wrong-kind
ValueError (Class on a non-class, MetaClass on anything that is not a
metaclass, Protocol on a non-Protocol instance) and never returns a proxy. -/
theorem kindMismatch_valueError_c9 (env : RtEnv) (addr fuel : Nat) (h : addr ≠ 0) :
    (env.isClass addr = false →
      classNewFromCdata env addr fuel = some (.error (.valueError .notAClass)))
    ∧ ((env.isClass addr && env.isMeta addr) = false →
      metaclassNewFromCdata env addr fuel = some (.error (.valueError .notAMetaclass)))
    ∧ (isProtocolModel env addr fuel = some false →
      protocolNewFromCdata env addr fuel = some (.error (.valueError .notAProtocolInstance))) := by
  refine ⟨?_, ?_, ?_⟩
  · intro hc
    simp [classNewFromCdata, h, hc]
  · intro hm
    simp [metaclassNewFromCdata, h, hm]
  · intro hp
    simp [protocolNewFromCdata, h, hp]

/-- Witness for C9 amended at address 5 in the trivial environment. -/
theorem kindMismatch_valueError_c9_witness :
    classNewFromCdata rtEnvPlain 5 1 = some (.error (.valueError .notAClass))
    ∧ metaclassNewFromCdata rtEnvPlain 5 1 = some (.error (.valueError .notAMetaclass))
    ∧ protocolNewFromCdata rtEnvPlain 5 1 = some (.error (.valueError .notAProtocolInstance)) :=
  ⟨(kindMismatch_valueError_c9 rtEnvPlain 5 1 (by decide)).1 rfl,
   (kindMismatch_valueError_c9 rtEnvPlain 5 1 (by decide)).2.1 rfl,
   (kindMismatch_valueError_c9 rtEnvPlain 5 1 (by decide)).2.2 rfl⟩

/-- C10 evaluated on the chain built for a three-level hierarchy Root, Mid,
Leaf where the key 0 is declared at the Root level (value 10) and
overridden at the Mid level (value 11) and the Leaf level declares nothing:
the two-level chain resolves nearest-first as intended, but the three-level
chain splices the nested chain's already reversed list and reverses again,
leaving the Root level before the Mid level, so lookup returns the Root
entry instead of the nearest one; iteration still yields each key once and
the reported length is the sum of the constituent lengths (2), exceeding
the single distinct key. -/
theorem mappingChain_order_c10 :
    (mapChainInit [ChainArg.base [((0 : Nat), (10 : Nat))], ChainArg.base [(0, 11)]]).mappings
      = [[(0, 11)], [(0, 10)]]
    ∧ chainGet (mapChainInit [ChainArg.base [((0 : Nat), (10 : Nat))], ChainArg.base [(0, 11)]]) 0
      = .ok 11
    ∧ (mapChainInit [ChainArg.chain (mapChainInit
          [ChainArg.base [((0 : Nat), (10 : Nat))], ChainArg.base [(0, 11)]]),
        ChainArg.base []]).mappings
      = [[], [(0, 10)], [(0, 11)]]
    ∧ chainGet (mapChainInit [ChainArg.chain (mapChainInit
          [ChainArg.base [((0 : Nat), (10 : Nat))], ChainArg.base [(0, 11)]]),
        ChainArg.base []]) 0
      = .ok 10
    ∧ chainIter (mapChainInit [ChainArg.chain (mapChainInit
          [ChainArg.base [((0 : Nat), (10 : Nat))], ChainArg.base [(0, 11)]]),
        ChainArg.base []])
      = [0]
    ∧ chainLen (mapChainInit [ChainArg.chain (mapChainInit
          [ChainArg.base [((0 : Nat), (10 : Nat))], ChainArg.base [(0, 11)]]),
        ChainArg.base []])
      = 2 :=
  ⟨rfl, rfl, rfl, rfl, rfl, rfl⟩
